import Mathlib

/-!
Verification of the bookstore catalog service (Go + Echo + MongoDB,
`src/cmd/main.go`) against its design specification.

The MongoDB collection is modelled as a `List BookStore`; each HTTP handler
becomes a pure function from the request data and the stored collection to a
`(status, collection)` pair.  Where a claim is about storage-error paths, the
outcome of the corresponding driver call (`FindOne`, `Find`, `cursor.All`,
`ListCollectionNames`, `RunCommand`) is passed in as an explicit parameter, so
the handler's branching on the call result is modelled exactly as written.
-/

/-- Book record, mirroring the Go struct `BookStore` in `src/cmd/main.go`:
the storage-assigned internal identifier (`_id` / `MongoID`, modelled as a
`Nat`) plus the six externally visible string fields. -/
structure BookStore where
  MongoID : Nat
  ID : String
  BookName : String
  BookAuthor : String
  BookEdition : String
  BookPages : String
  BookYear : String
deriving Repr, DecidableEq

/-- The exact-match filter across all six externally visible fields, as built
by the POST handler (`bson.M` with keys ID, BookName, BookAuthor, BookEdition,
BookPages, BookYear) and by the seeding query in `prepareData`.  The internal
`MongoID` is never part of the filter. -/
def sameSixFields (q r : BookStore) : Bool :=
  q.ID == r.ID && q.BookName == r.BookName && q.BookAuthor == r.BookAuthor &&
    q.BookEdition == r.BookEdition && q.BookPages == r.BookPages &&
    q.BookYear == r.BookYear

/-- Number of stored records matching the six-field exact filter for `book`. -/
def countMatches (s : List BookStore) (book : BookStore) : Nat :=
  (s.filter (fun r => sameSixFields book r)).length

/-- A fresh internal identifier, strictly larger than every identifier already
present; models the driver generating a new ObjectID on `InsertOne`. -/
def freshId (s : List BookStore) : Nat :=
  (s.map (fun b => b.MongoID)).foldl (fun m n => max m n) 0 + 1

/-- Model of `InsertOne`: append the record, with a storage-assigned internal
id. -/
def insertBook (s : List BookStore) (b : BookStore) : List BookStore :=
  s ++ [{ b with MongoID := freshId s }]

/-- Outcome of the `FindOne` duplicate lookup in the POST handler, as seen
through `SingleResult.Err()`: `none` means the lookup found a document
(`Err() == nil`); otherwise the error is either the driver's
no-document-found sentinel or some other storage error. -/
inductive FindOneErr where
  | noDocuments : FindOneErr
  | storageError : FindOneErr
deriving Repr, DecidableEq

/-- The POST `/api/books` handler body after a successful bind, parametrised
by the outcome of the `FindOne` duplicate lookup and of `InsertOne`:

* `existing.Err() == nil` (i.e. `findOneErr.isNone`) responds 409, no insert;
* otherwise `InsertOne` is attempted: a failing insert responds 500,
  a successful one responds 201. -/
def postApiBooksCore (findOneErr : Option FindOneErr) (insertFails : Bool)
    (s : List BookStore) (newBook : BookStore) : Nat × List BookStore :=
  if findOneErr.isNone then (409, s)
  else if insertFails then (500, s)
  else (201, insertBook s newBook)

/-- The POST `/api/books` handler under normal storage semantics: `FindOne`
with the six-field exact filter errs with `ErrNoDocuments` exactly when no
stored record matches, and the insert succeeds. -/
def postApiBooks (s : List BookStore) (newBook : BookStore) : Nat × List BookStore :=
  postApiBooksCore
    (if s.any (fun r => sameSixFields newBook r) then none else some FindOneErr.noDocuments)
    false s newBook

/-- One seeding step of `prepareData`: `Find` all six-field exact matches of
`book`; more than one match is a fatal inconsistency (`log.Fatal`, modelled as
`none`), zero matches inserts the record, exactly one match is a no-op. -/
def seedOne (s : List BookStore) (book : BookStore) : Option (List BookStore) :=
  let results := s.filter (fun r => sameSixFields book r)
  if results.length > 1 then none
  else if results.length == 0 then some (insertBook s book)
  else some s

/-- The loop of `prepareData` over the fixed seed records; a fatal step stops
the run. -/
def seedAll (s : List BookStore) : List BookStore → Option (List BookStore)
  | [] => some s
  | b :: rest =>
    match seedOne s b with
    | none => none
    | some s' => seedAll s' rest

/-- First fixed example record of `prepareData` (internal id 0 is the Go zero
value, omitted on insert and replaced by storage). -/
def exampleBook1 : BookStore :=
  { MongoID := 0, ID := "example1", BookName := "The Vortex",
    BookAuthor := "José Eustasio Rivera", BookEdition := "958-30-0804-4",
    BookPages := "292", BookYear := "1924" }

/-- Second fixed example record of `prepareData`. -/
def exampleBook2 : BookStore :=
  { MongoID := 0, ID := "example2", BookName := "Frankenstein",
    BookAuthor := "Mary Shelley", BookEdition := "978-3-649-64609-9",
    BookPages := "280", BookYear := "1818" }

/-- Third fixed example record of `prepareData`. -/
def exampleBook3 : BookStore :=
  { MongoID := 0, ID := "example3", BookName := "The Black Cat",
    BookAuthor := "Edgar Allan Poe", BookEdition := "978-3-99168-238-7",
    BookPages := "280", BookYear := "1843" }

/-- The three fixed example records inserted by `prepareData`, in seeding
order. -/
def exampleBooks : List BookStore :=
  [exampleBook1, exampleBook2, exampleBook3]

/-- Model of `prepareData`: run the seeding step for each of the three example
records. -/
def prepareData (s : List BookStore) : Option (List BookStore) :=
  seedAll s exampleBooks

/-- Run the whole bootstrap-seeding step `n` times in sequence. -/
def seedTimes : Nat → List BookStore → Option (List BookStore)
  | 0, s => some s
  | n + 1, s =>
    match prepareData s with
    | none => none
    | some s' => seedTimes n s'

/-- A JSON scalar value, as decoded by `c.Bind(&data)` into
`map[string]interface{}` for the PUT handler; only the string/non-string
distinction matters to the handler. -/
inductive JValue where
  | str : String → JValue
  | num : Int → JValue
  | bool : Bool → JValue
  | null : JValue
deriving Repr, DecidableEq

/-- The Go type assertion `v, ok := x.(string)`. -/
def asString : JValue → Option String
  | JValue.str s => some s
  | _ => none

/-- Model of `data[k].(string)`: look the key up in the decoded body and keep
it only if it is a string. -/
def lookupString (data : List (String × JValue)) (k : String) : Option String :=
  (data.lookup k).bind asString

/-- The partial `$set` document built by the PUT handler: one optional entry
per recognized key. -/
structure UpdateFields where
  BookName : Option String
  BookAuthor : Option String
  BookEdition : Option String
  BookPages : Option String
  BookYear : Option String
deriving Repr, DecidableEq

/-- Emptiness test `len(updateFields) == 0`: no recognized string-valued key
was supplied. -/
def UpdateFields.isEmpty (u : UpdateFields) : Bool :=
  u.BookName.isNone && u.BookAuthor.isNone && u.BookEdition.isNone &&
    u.BookPages.isNone && u.BookYear.isNone

/-- Build the update document from the decoded body: each recognized key
(title, author, edition, pages, year), if present with a string value, is
added; everything else is skipped. -/
def buildUpdateFields (data : List (String × JValue)) : UpdateFields :=
  { BookName := lookupString data "title"
    BookAuthor := lookupString data "author"
    BookEdition := lookupString data "edition"
    BookPages := lookupString data "pages"
    BookYear := lookupString data "year" }

/-- Apply a `$set` update document to one record: supplied fields are
replaced, everything else (including `ID` and the internal id) is kept. -/
def applySet (u : UpdateFields) (b : BookStore) : BookStore :=
  { b with
    BookName := u.BookName.getD b.BookName
    BookAuthor := u.BookAuthor.getD b.BookAuthor
    BookEdition := u.BookEdition.getD b.BookEdition
    BookPages := u.BookPages.getD b.BookPages
    BookYear := u.BookYear.getD b.BookYear }

/-- Model of `UpdateOne` with filter `{ID: id}`: update the first record whose
external id matches, returning the new collection and the matched count
(0 or 1). -/
def updateFirst (id : String) (u : UpdateFields) : List BookStore → List BookStore × Nat
  | [] => ([], 0)
  | b :: rest =>
    if b.ID == id then (applySet u b :: rest, 1)
    else
      let p := updateFirst id u rest
      (b :: p.1, p.2)

/-- Model of `DeleteOne` with filter `{ID: id}`: remove the first record whose
external id matches, returning the new collection and the deleted count
(0 or 1). -/
def deleteFirst (id : String) : List BookStore → List BookStore × Nat
  | [] => ([], 0)
  | b :: rest =>
    if b.ID == id then (rest, 1)
    else
      let p := deleteFirst id rest
      (b :: p.1, p.2)

/-- The PUT `/api/books/:id` handler body after a successful bind: an empty
update document responds 400 with no update attempted; otherwise `UpdateOne`
keyed on the external id runs, and a matched count of zero responds 404. -/
def putApiBooks (id : String) (data : List (String × JValue))
    (s : List BookStore) : Nat × List BookStore :=
  let u := buildUpdateFields data
  if u.isEmpty then (400, s)
  else
    let r := updateFirst id u s
    (if r.2 == 0 then 404 else 200, r.1)

/-- The DELETE `/api/books/:id` handler body: `DeleteOne` keyed on the
external id; a deleted count of zero responds 404. -/
def deleteApiBooks (id : String) (s : List BookStore) : Nat × List BookStore :=
  let r := deleteFirst id s
  (if r.2 == 0 then 404 else 200, r.1)

/-- A storage/driver error (the handlers never inspect its contents). -/
inductive DbErr where
  | dbErr : DbErr
deriving Repr, DecidableEq

/-- Model of `findAllBooks`: `Find` with the empty filter, then materialize
the cursor; either call failing panics (modelled as `none`), otherwise the
decoded records are returned. -/
def findAllBooks (findRes : Except DbErr Unit)
    (allRes : Except DbErr (List BookStore)) : Option (List BookStore) :=
  match findRes with
  | Except.error _ => none
  | Except.ok _ =>
    match allRes with
    | Except.error _ => none
    | Except.ok results => some results

/-- The GET `/books` handler: render the full list with status 200; a panic
inside `findAllBooks` escapes the handler (`none`). -/
def getBooksPage (findRes : Except DbErr Unit)
    (allRes : Except DbErr (List BookStore)) : Option (Nat × List BookStore) :=
  (findAllBooks findRes allRes).map (fun books => (200, books))

/-- The GET `/api/books` handler: serialize the full list with status 200; a
panic inside `findAllBooks` escapes the handler (`none`). -/
def getApiBooks (findRes : Except DbErr Unit)
    (allRes : Except DbErr (List BookStore)) : Option (Nat × List BookStore) :=
  (findAllBooks findRes allRes).map (fun books => (200, books))

/-- The linear scan shared by the `/authors` and `/years` handlers: walk the
records keeping a membership set (`map[string]bool`, modelled as the list of
seen values) and an output list, appending each value the first time it is
seen. -/
def collectField (f : BookStore → String) (results : List BookStore) : List String :=
  (results.foldl
    (fun acc book =>
      if acc.1.contains (f book) then acc
      else (f book :: acc.1, acc.2 ++ [f book]))
    ([], [])).2

/-- The GET `/authors` handler: a failing `Find` or cursor materialization
responds 500 with no list; otherwise the deduplicated author list is rendered
with status 200. -/
def getAuthorsPage (findRes : Except DbErr Unit)
    (allRes : Except DbErr (List BookStore)) : Nat × Option (List String) :=
  match findRes with
  | Except.error _ => (500, none)
  | Except.ok _ =>
    match allRes with
    | Except.error _ => (500, none)
    | Except.ok results => (200, some (collectField (fun b => b.BookAuthor) results))

/-- The GET `/years` handler: same shape as `/authors`, on the year field. -/
def getYearsPage (findRes : Except DbErr Unit)
    (allRes : Except DbErr (List BookStore)) : Nat × Option (List String) :=
  match findRes with
  | Except.error _ => (500, none)
  | Except.ok _ =>
    match allRes with
    | Except.error _ => (500, none)
    | Except.ok results => (200, some (collectField (fun b => b.BookYear) results))

/-- Modelled from the spec (refinement target for the derived-list routes):
deduplicate a list of strings keeping, for each distinct value, its first
occurrence, in first-seen order. -/
def firstSeenDedup : List String → List String
  | [] => []
  | x :: xs => x :: firstSeenDedup (xs.filter (fun y => !(y == x)))
termination_by l => l.length
decreasing_by
  simp only [List.length_cons]
  exact Nat.lt_succ_of_le (List.length_filter_le _ _)

/-- JSON serialization of one book record, following the struct tags of
`BookStore`: `id`, `title`, `author` always; `edition`, `pages`, `year` only
when non-empty (`omitempty`); the internal id never (`json:"-"`). -/
def bookToJson (b : BookStore) : List (String × String) :=
  [("id", b.ID), ("title", b.BookName), ("author", b.BookAuthor)]
    ++ (if b.BookEdition == "" then [] else [("edition", b.BookEdition)])
    ++ (if b.BookPages == "" then [] else [("pages", b.BookPages)])
    ++ (if b.BookYear == "" then [] else [("year", b.BookYear)])

/-- Result of `prepareDatabase`: either the process terminated via
`log.Fatal`, or the function returned a (possibly nil) collection handle
(modelled by its name) and a (possibly nil) error. -/
inductive PrepOutcome where
  | fatal : PrepOutcome
  | ret : Option String → Option DbErr → PrepOutcome
deriving Repr, DecidableEq

/-- Model of `prepareDatabase`, parametrised by the outcomes of the two driver
calls it makes (`ListCollectionNames`, and the `create` `RunCommand` when
reached):

* a failing name listing returns `(nil, err)`;
* when the collection name is absent, `create` is run; a failing create is
  `log.Fatal`;
* otherwise the collection handle is returned with a nil error.

The second component records whether the `create` command was issued. -/
def prepareDatabase (listNamesRes : Except DbErr (List String))
    (createRes : Except DbErr Unit) (dbName collecName : String) :
    PrepOutcome × Bool :=
  match listNamesRes with
  | Except.error e => (PrepOutcome.ret none (some e), false)
  | Except.ok names =>
    if !names.contains collecName then
      match createRes with
      | Except.error _ => (PrepOutcome.fatal, true)
      | Except.ok _ => (PrepOutcome.ret (some collecName) none, true)
    else (PrepOutcome.ret (some collecName) none, false)

/-- Sample records used to instantiate the laws at concrete inputs. -/
def bookDune : BookStore :=
  { MongoID := 0, ID := "b4", BookName := "Dune", BookAuthor := "Frank Herbert",
    BookEdition := "", BookPages := "", BookYear := "1965" }

/-- A second sample record sharing no field values with `bookDune`. -/
def bookHobbit : BookStore :=
  { MongoID := 0, ID := "b5", BookName := "The Hobbit",
    BookAuthor := "J. R. R. Tolkien", BookEdition := "1st", BookPages := "310",
    BookYear := "1937" }

/-- A sample record with the same external id as `bookDune` but different
content fields. -/
def bookDuneMessiah : BookStore :=
  { MongoID := 7, ID := "b4", BookName := "Dune Messiah",
    BookAuthor := "Frank Herbert", BookEdition := "", BookPages := "",
    BookYear := "1969" }

/-- The storage state produced by running the bootstrap seeding once against
an empty collection. -/
def seededExample : List BookStore :=
  [{ exampleBook1 with MongoID := 1 },
   { exampleBook2 with MongoID := 2 },
   { exampleBook3 with MongoID := 3 }]

/-! ## Helper lemmas -/

/-- The six-field filter never inspects the internal identifier. -/
theorem sameSixFields_setMongoID (q b : BookStore) (n : Nat) :
    sameSixFields q { b with MongoID := n } = sameSixFields q b := rfl

/-- The six-field filter matches the record it was built from. -/
theorem sameSixFields_self (b : BookStore) : sameSixFields b b = true := by
  simp [sameSixFields]

/-- Inserting a record adds exactly one match for its own six-field filter. -/
theorem countMatches_insert_self (s : List BookStore) (b : BookStore) :
    countMatches (insertBook s b) b = countMatches s b + 1 := by
  simp [countMatches, insertBook, List.filter_append, sameSixFields_setMongoID,
    sameSixFields_self]

/-- Inserting a record leaves the match count of any non-matching filter
unchanged. -/
theorem countMatches_insert_other (s : List BookStore) (b q : BookStore)
    (h : sameSixFields q b = false) :
    countMatches (insertBook s b) q = countMatches s q := by
  simp [countMatches, insertBook, List.filter_append, sameSixFields_setMongoID, h]

/-- Unfolding `seedOne` through the match count of its query. -/
theorem seedOne_eq (s : List BookStore) (b : BookStore) :
    seedOne s b =
      if countMatches s b > 1 then none
      else if countMatches s b == 0 then some (insertBook s b)
      else some s := rfl

/-- A successful seeding step leaves exactly one match for its record. -/
theorem seedOne_count (s s' : List BookStore) (b : BookStore)
    (h : seedOne s b = some s') : countMatches s' b = 1 := by
  rw [seedOne_eq] at h
  rcases Nat.lt_trichotomy (countMatches s b) 1 with h1 | h1 | h1
  · have h0 : countMatches s b = 0 := Nat.lt_one_iff.mp h1
    simp [h0] at h
    subst h
    simp [countMatches_insert_self, h0]
  · simp [h1] at h
    subst h
    exact h1
  · simp [h1] at h

/-- A successful seeding step leaves match counts of non-matching filters
unchanged. -/
theorem seedOne_count_other (s s' : List BookStore) (b q : BookStore)
    (h : seedOne s b = some s') (hq : sameSixFields q b = false) :
    countMatches s' q = countMatches s q := by
  rw [seedOne_eq] at h
  rcases Nat.lt_trichotomy (countMatches s b) 1 with h1 | h1 | h1
  · have h0 : countMatches s b = 0 := Nat.lt_one_iff.mp h1
    simp [h0] at h
    subst h
    exact countMatches_insert_other s b q hq
  · simp [h1] at h
    subst h
    rfl
  · simp [h1] at h

/-- A seeding step on a record that already has exactly one match is a
no-op. -/
theorem seedOne_of_count_one (s : List BookStore) (b : BookStore)
    (h : countMatches s b = 1) : seedOne s b = some s := by
  rw [seedOne_eq, h]
  simp

/-- The three example records are pairwise distinguished by the six-field
filter, in every query direction needed below. -/
theorem exampleBooks_pairwise_distinct :
    sameSixFields exampleBook1 exampleBook2 = false ∧
    sameSixFields exampleBook1 exampleBook3 = false ∧
    sameSixFields exampleBook2 exampleBook1 = false ∧
    sameSixFields exampleBook2 exampleBook3 = false ∧
    sameSixFields exampleBook3 exampleBook1 = false ∧
    sameSixFields exampleBook3 exampleBook2 = false := by
  refine ⟨?_, ?_, ?_, ?_, ?_, ?_⟩ <;>
    simp [sameSixFields, exampleBook1, exampleBook2, exampleBook3]

/-- An `UpdateOne` whose filter matches no stored record changes nothing and
matches zero documents. -/
theorem updateFirst_no_match (id : String) (u : UpdateFields)
    (s : List BookStore) (h : ∀ a ∈ s, a.ID ≠ id) :
    updateFirst id u s = (s, 0) := by
  induction s with
  | nil => rfl
  | cons b rest ih =>
    have hb : (b.ID == id) = false :=
      beq_eq_false_iff_ne.mpr (h b (List.mem_cons_self b rest))
    have hr := ih (fun a ha => h a (List.mem_cons_of_mem b ha))
    simp [updateFirst, hb, hr]

/-- An `UpdateOne` whose filter first matches at record `b` rewrites exactly
that record and matches one document. -/
theorem updateFirst_first_match (id : String) (u : UpdateFields)
    (pre post : List BookStore) (b : BookStore)
    (hpre : ∀ a ∈ pre, a.ID ≠ id) (hb : b.ID = id) :
    updateFirst id u (pre ++ b :: post) = (pre ++ applySet u b :: post, 1) := by
  induction pre with
  | nil =>
    have hb' : (b.ID == id) = true := beq_iff_eq.mpr hb
    simp [updateFirst, hb']
  | cons a rest ih =>
    have ha : (a.ID == id) = false :=
      beq_eq_false_iff_ne.mpr (hpre a (List.mem_cons_self a rest))
    have hr := ih (fun x hx => hpre x (List.mem_cons_of_mem a hx))
    simp [updateFirst, ha, hr]

/-- An `UpdateOne` matches at most one document. -/
theorem updateFirst_matched_le_one (id : String) (u : UpdateFields)
    (s : List BookStore) : (updateFirst id u s).2 ≤ 1 := by
  induction s with
  | nil => simp [updateFirst]
  | cons b rest ih =>
    by_cases hb : (b.ID == id) = true
    · simp [updateFirst, hb]
    · simp only [Bool.not_eq_true] at hb
      simp [updateFirst, hb, ih]

/-- A `DeleteOne` whose filter matches no stored record changes nothing and
deletes zero documents. -/
theorem deleteFirst_no_match (id : String) (s : List BookStore)
    (h : ∀ a ∈ s, a.ID ≠ id) : deleteFirst id s = (s, 0) := by
  induction s with
  | nil => rfl
  | cons b rest ih =>
    have hb : (b.ID == id) = false :=
      beq_eq_false_iff_ne.mpr (h b (List.mem_cons_self b rest))
    have hr := ih (fun a ha => h a (List.mem_cons_of_mem b ha))
    simp [deleteFirst, hb, hr]

/-- A `DeleteOne` whose filter first matches at record `b` removes exactly
that record and deletes one document. -/
theorem deleteFirst_first_match (id : String) (pre post : List BookStore)
    (b : BookStore) (hpre : ∀ a ∈ pre, a.ID ≠ id) (hb : b.ID = id) :
    deleteFirst id (pre ++ b :: post) = (pre ++ post, 1) := by
  induction pre with
  | nil =>
    have hb' : (b.ID == id) = true := beq_iff_eq.mpr hb
    simp [deleteFirst, hb']
  | cons a rest ih =>
    have ha : (a.ID == id) = false :=
      beq_eq_false_iff_ne.mpr (hpre a (List.mem_cons_self a rest))
    have hr := ih (fun x hx => hpre x (List.mem_cons_of_mem a hx))
    simp [deleteFirst, ha, hr]

/-- A `DeleteOne` deletes at most one document. -/
theorem deleteFirst_deleted_le_one (id : String) (s : List BookStore) :
    (deleteFirst id s).2 ≤ 1 := by
  induction s with
  | nil => simp [deleteFirst]
  | cons b rest ih =>
    by_cases hb : (b.ID == id) = true
    · simp [deleteFirst, hb]
    · simp only [Bool.not_eq_true] at hb
      simp [deleteFirst, hb, ih]

/-- Looking a key up past an entry with a different key. -/
theorem lookupString_cons_ne (k q : String) (v : JValue)
    (data : List (String × JValue)) (h : q ≠ k) :
    lookupString ((k, v) :: data) q = lookupString data q := by
  have hq : (q == k) = false := beq_eq_false_iff_ne.mpr h
  simp [lookupString, List.lookup, hq]

/-- A non-string value behaves exactly like an absent key for every lookup. -/
theorem lookupString_cons_nonstring (k q : String) (v : JValue)
    (data : List (String × JValue)) (hv : asString v = none)
    (hd : data.lookup k = none) :
    lookupString ((k, v) :: data) q = lookupString data q := by
  by_cases h : q = k
  · subst h
    simp [lookupString, List.lookup, hv, hd]
  · exact lookupString_cons_ne k q v data h

/-! ## Claim theorems -/

/-- C1: POSTing a record equal to some stored record in all six fields
responds 409 and leaves the collection unchanged; POSTing a record differing
from every stored record in at least one field responds 201 and inserts
exactly that record, growing the collection by one. -/
theorem create_duplicate_law (s : List BookStore) (R : BookStore) :
    ((∃ b ∈ s, sameSixFields R b = true) → postApiBooks s R = (409, s)) ∧
    ((∀ b ∈ s, sameSixFields R b = false) →
      postApiBooks s R = (201, s ++ [{ R with MongoID := freshId s }]) ∧
        (s ++ [{ R with MongoID := freshId s }]).length = s.length + 1) := by
  constructor
  · intro h
    obtain ⟨b, hb, hsame⟩ := h
    have hany : s.any (fun r => sameSixFields R r) = true := by
      simp only [List.any_eq_true]
      exact ⟨b, hb, hsame⟩
    simp [postApiBooks, postApiBooksCore, hany]
  · intro h
    have hany : s.any (fun r => sameSixFields R r) = false := by
      simp only [List.any_eq_false]
      intro b hb
      simp [h b hb]
    simp [postApiBooks, postApiBooksCore, insertBook, hany]

/-- C1 witness: a duplicate POST is refused, a fresh POST is inserted. -/
theorem create_duplicate_law_witness :
    postApiBooks [bookHobbit] bookHobbit = (409, [bookHobbit]) ∧
    (postApiBooks [bookHobbit] bookDune
        = (201, [bookHobbit] ++ [{ bookDune with MongoID := freshId [bookHobbit] }]) ∧
      ([bookHobbit] ++ [{ bookDune with MongoID := freshId [bookHobbit] }]).length
        = [bookHobbit].length + 1) :=
  ⟨(create_duplicate_law [bookHobbit] bookHobbit).1 (by decide),
   (create_duplicate_law [bookHobbit] bookDune).2 (by decide)⟩

/-- C8: the POST handler responds 409 exactly when the duplicate lookup's
result carries no error; every lookup error, the no-document sentinel and any
other storage error alike, leads to the insert being attempted, so a failing
duplicate check never produces an error response by itself. -/
theorem post_duplicate_lookup_error_ignored (s : List BookStore) (b : BookStore) :
    (∀ e ins, ((postApiBooksCore e ins s b).1 = 409 ↔ e = none)) ∧
    (∀ err, postApiBooksCore (some err) false s b = (201, insertBook s b)) ∧
    (∀ err ins, postApiBooksCore (some err) ins s b
        = postApiBooksCore (some FindOneErr.noDocuments) ins s b) := by
  refine ⟨?_, ?_, ?_⟩
  · intro e ins
    cases e <;> cases ins <;> simp [postApiBooksCore]
  · intro err
    simp [postApiBooksCore]
  · intro err ins
    cases ins <;> simp [postApiBooksCore]

/-- C8 witness: a storage error during the duplicate check still ends in a
201 insert. -/
theorem post_duplicate_lookup_error_ignored_witness :
    postApiBooksCore (some FindOneErr.storageError) false [] bookDune
      = (201, insertBook [] bookDune) :=
  (post_duplicate_lookup_error_ignored [] bookDune).2.1 FindOneErr.storageError

/-- C5 counterexample: when the collection-existence check
(`ListCollectionNames`) errors, `prepareDatabase` does not terminate the
process; it returns a nil handle and the error to its caller. -/
theorem prepareDatabase_list_error_not_fatal :
    prepareDatabase (Except.error DbErr.dbErr) (Except.ok ())
        "exercise-1" "information"
      = (PrepOutcome.ret none (some DbErr.dbErr), false) ∧
    PrepOutcome.ret (none : Option String) (some DbErr.dbErr)
      ≠ PrepOutcome.fatal :=
  ⟨rfl, by decide⟩

/-- C5 (amended): `prepareDatabase` issues the create command exactly when the
collection name is absent from the listing, returns the collection handle with
a nil error on every non-fatal success path, terminates fatally when the
creation call errors, and, when the existence check errors, returns a nil
handle together with the error instead of terminating. -/
theorem prepareDatabase_contract_amended (names : List String) (e : DbErr)
    (cr : Except DbErr Unit) (dbName collecName : String) :
    ((prepareDatabase (Except.ok names) cr dbName collecName).2
        = !names.contains collecName) ∧
    (prepareDatabase (Except.ok names) (Except.error e) dbName collecName
        = if names.contains collecName
          then (PrepOutcome.ret (some collecName) none, false)
          else (PrepOutcome.fatal, true)) ∧
    (prepareDatabase (Except.ok names) (Except.ok ()) dbName collecName
        = (PrepOutcome.ret (some collecName) none, !names.contains collecName)) ∧
    (prepareDatabase (Except.error e) cr dbName collecName
        = (PrepOutcome.ret none (some e), false)) := by
  refine ⟨?_, ?_, ?_, ?_⟩
  · cases cr <;> by_cases h : collecName ∈ names <;> simp [prepareDatabase, h]
  · by_cases h : collecName ∈ names <;> simp [prepareDatabase, h]
  · by_cases h : collecName ∈ names <;> simp [prepareDatabase, h]
  · cases cr <;> rfl

/-- C3: for an external id matching no stored record, PUT (with at least one
recognized string-valued field) and DELETE both respond 404 and leave the
collection unchanged. -/
theorem update_delete_not_found_law (id : String)
    (data : List (String × JValue)) (s : List BookStore)
    (h : ∀ b ∈ s, b.ID ≠ id) :
    ((buildUpdateFields data).isEmpty = false →
      putApiBooks id data s = (404, s)) ∧
    deleteApiBooks id s = (404, s) := by
  constructor
  · intro hu
    simp [putApiBooks, hu, updateFirst_no_match id (buildUpdateFields data) s h]
  · simp [deleteApiBooks, deleteFirst_no_match id s h]

/-- C3 witness: PUT and DELETE on an absent id answer 404 without mutation. -/
theorem update_delete_not_found_law_witness :
    putApiBooks "zzz" [("title", JValue.str "X")] [bookDune]
      = (404, [bookDune]) ∧
    deleteApiBooks "zzz" [bookDune] = (404, [bookDune]) :=
  ⟨(update_delete_not_found_law "zzz" [("title", JValue.str "X")] [bookDune]
      (by decide)).1 (by decide),
   (update_delete_not_found_law "zzz" [("title", JValue.str "X")] [bookDune]
      (by decide)).2⟩

/-- C9: even when several stored records share one external id, PUT rewrites
only the first matching record (all later records, matching or not, are kept
verbatim) and DELETE removes only the first matching record; both operations
touch at most one document. -/
theorem shared_external_id_single_document (id : String)
    (data : List (String × JValue)) (pre post s : List BookStore)
    (b : BookStore) (hpre : ∀ a ∈ pre, a.ID ≠ id) (hb : b.ID = id) :
    ((buildUpdateFields data).isEmpty = false →
      putApiBooks id data (pre ++ b :: post)
        = (200, pre ++ applySet (buildUpdateFields data) b :: post)) ∧
    deleteApiBooks id (pre ++ b :: post) = (200, pre ++ post) ∧
    (updateFirst id (buildUpdateFields data) s).2 ≤ 1 ∧
    (deleteFirst id s).2 ≤ 1 ∧
    (pre ++ applySet (buildUpdateFields data) b :: post).length
      = (pre ++ b :: post).length ∧
    (pre ++ post).length + 1 = (pre ++ b :: post).length := by
  refine ⟨?_, ?_, updateFirst_matched_le_one id _ s,
    deleteFirst_deleted_le_one id s, ?_, ?_⟩
  · intro hu
    simp [putApiBooks, hu,
      updateFirst_first_match id (buildUpdateFields data) pre post b hpre hb]
  · simp [deleteApiBooks, deleteFirst_first_match id pre post b hpre hb]
  · simp
  · simp [List.length_append]
    omega

/-- C9 witness: with two records sharing id `b4`, PUT updates only the first
and DELETE removes only the first. -/
theorem shared_external_id_single_document_witness :
    putApiBooks "b4" [("year", JValue.str "1965")]
        ([] ++ bookDune :: [bookDuneMessiah])
      = (200, [] ++ applySet (buildUpdateFields [("year", JValue.str "1965")])
          bookDune :: [bookDuneMessiah]) ∧
    deleteApiBooks "b4" ([] ++ bookDune :: [bookDuneMessiah])
      = (200, [] ++ [bookDuneMessiah]) :=
  ⟨(shared_external_id_single_document "b4" [("year", JValue.str "1965")] []
      [bookDuneMessiah] [] bookDune (by decide) (by decide)).1 (by decide),
   (shared_external_id_single_document "b4" [("year", JValue.str "1965")] []
      [bookDuneMessiah] [] bookDune (by decide) (by decide)).2.1⟩

/-- C10: `findAllBooks` panics (escaping the handler) exactly when the query
or the cursor materialization fails, so the GET `/books` and GET `/api/books`
handlers either return the full stored list with status 200 or let the panic
escape; they never produce any other status themselves. -/
theorem list_routes_panic_or_200 (findRes : Except DbErr Unit)
    (allRes : Except DbErr (List BookStore)) :
    (findAllBooks findRes allRes = none ↔
      findRes = Except.error DbErr.dbErr ∨ allRes = Except.error DbErr.dbErr) ∧
    (∀ st l, getBooksPage findRes allRes = some (st, l) →
      st = 200 ∧ allRes = Except.ok l) ∧
    (∀ st l, getApiBooks findRes allRes = some (st, l) →
      st = 200 ∧ allRes = Except.ok l) ∧
    (∀ s, getBooksPage (Except.ok ()) (Except.ok s) = some (200, s)) ∧
    (∀ s, getApiBooks (Except.ok ()) (Except.ok s) = some (200, s)) := by
  refine ⟨?_, ?_, ?_, fun s => rfl, fun s => rfl⟩
  · cases findRes with
    | error e => cases e; simp [findAllBooks]
    | ok u =>
      cases allRes with
      | error e => cases e; simp [findAllBooks]
      | ok l => simp [findAllBooks]
  · intro st l h
    cases findRes with
    | error e => simp [getBooksPage, findAllBooks] at h
    | ok u =>
      cases allRes with
      | error e => simp [getBooksPage, findAllBooks] at h
      | ok l' =>
        simp [getBooksPage, findAllBooks] at h
        simp [h.1, h.2]
  · intro st l h
    cases findRes with
    | error e => simp [getApiBooks, findAllBooks] at h
    | ok u =>
      cases allRes with
      | error e => simp [getApiBooks, findAllBooks] at h
      | ok l' =>
        simp [getApiBooks, findAllBooks] at h
        simp [h.1, h.2]

/-- C10 witness: on a concrete store the two list routes answer 200 with the
full list. -/
theorem list_routes_panic_or_200_witness :
    ((200 : Nat) = 200 ∧
      (Except.ok [bookDune] : Except DbErr (List BookStore))
        = Except.ok [bookDune]) ∧
    getApiBooks (Except.ok ()) (Except.ok [bookDune]) = some (200, [bookDune]) :=
  ⟨(list_routes_panic_or_200 (Except.ok ()) (Except.ok [bookDune])).2.1
      200 [bookDune] rfl,
   (list_routes_panic_or_200 (Except.ok ()) (Except.ok [bookDune])).2.2.2.2
      [bookDune]⟩

/-- An unrecognized key contributes nothing to the update document. -/
theorem buildUpdateFields_unrecognized (k : String) (v : JValue)
    (data : List (String × JValue))
    (h : k ∉ (["title", "author", "edition", "pages", "year"] : List String)) :
    buildUpdateFields ((k, v) :: data) = buildUpdateFields data := by
  simp only [List.mem_cons, List.not_mem_nil, or_false, not_or] at h
  obtain ⟨h1, h2, h3, h4, h5⟩ := h
  simp [buildUpdateFields,
    lookupString_cons_ne k "title" v data (fun e => h1 e.symm),
    lookupString_cons_ne k "author" v data (fun e => h2 e.symm),
    lookupString_cons_ne k "edition" v data (fun e => h3 e.symm),
    lookupString_cons_ne k "pages" v data (fun e => h4 e.symm),
    lookupString_cons_ne k "year" v data (fun e => h5 e.symm)]

/-- A non-string value for any key contributes nothing to the update
document. -/
theorem buildUpdateFields_nonstring (k : String) (v : JValue)
    (data : List (String × JValue)) (hv : asString v = none)
    (hd : data.lookup k = none) :
    buildUpdateFields ((k, v) :: data) = buildUpdateFields data := by
  simp [buildUpdateFields,
    lookupString_cons_nonstring k "title" v data hv hd,
    lookupString_cons_nonstring k "author" v data hv hd,
    lookupString_cons_nonstring k "edition" v data hv hd,
    lookupString_cons_nonstring k "pages" v data hv hd,
    lookupString_cons_nonstring k "year" v data hv hd]

/-- C2: a PUT body sets exactly the recognized string-valued keys it supplies
on the first record whose external id matches, leaves every other field of
that record (including the external id and the internal id) and every other
record unchanged, silently ignores unrecognized keys and non-string values,
and a body with no recognized string-valued key yields 400 with no
mutation. -/
theorem update_partial_field_law (id : String) (data : List (String × JValue))
    (s pre post : List BookStore) (b : BookStore) (k : String) (v : JValue) :
    ((buildUpdateFields data).isEmpty = true →
      putApiBooks id data s = (400, s)) ∧
    ((buildUpdateFields data).isEmpty = false → (∀ a ∈ pre, a.ID ≠ id) →
      b.ID = id →
      putApiBooks id data (pre ++ b :: post)
        = (200, pre ++ applySet (buildUpdateFields data) b :: post)) ∧
    ((applySet (buildUpdateFields data) b).ID = b.ID ∧
      (applySet (buildUpdateFields data) b).MongoID = b.MongoID) ∧
    ((applySet (buildUpdateFields data) b).BookName
        = (lookupString data "title").getD b.BookName ∧
      (applySet (buildUpdateFields data) b).BookAuthor
        = (lookupString data "author").getD b.BookAuthor ∧
      (applySet (buildUpdateFields data) b).BookEdition
        = (lookupString data "edition").getD b.BookEdition ∧
      (applySet (buildUpdateFields data) b).BookPages
        = (lookupString data "pages").getD b.BookPages ∧
      (applySet (buildUpdateFields data) b).BookYear
        = (lookupString data "year").getD b.BookYear) ∧
    (k ∉ (["title", "author", "edition", "pages", "year"] : List String) →
      putApiBooks id ((k, v) :: data) s = putApiBooks id data s) ∧
    (asString v = none → data.lookup k = none →
      putApiBooks id ((k, v) :: data) s = putApiBooks id data s) := by
  refine ⟨?_, ?_, ⟨rfl, rfl⟩, ⟨rfl, rfl, rfl, rfl, rfl⟩, ?_, ?_⟩
  · intro hu
    simp [putApiBooks, hu]
  · intro hu hpre hb
    simp [putApiBooks, hu,
      updateFirst_first_match id (buildUpdateFields data) pre post b hpre hb]
  · intro h
    unfold putApiBooks
    rw [buildUpdateFields_unrecognized k v data h]
  · intro hv hd
    unfold putApiBooks
    rw [buildUpdateFields_nonstring k v data hv hd]

/-- C2 witness: a body with no recognized string-valued key is refused with
400; a body carrying only `title` rewrites exactly the first matching record's
title. -/
theorem update_partial_field_law_witness :
    putApiBooks "b4" [("x", JValue.num 1)] [bookDune] = (400, [bookDune]) ∧
    putApiBooks "b4" [("title", JValue.str "Updated")]
        ([bookHobbit] ++ bookDune :: [])
      = (200, [bookHobbit] ++
          applySet (buildUpdateFields [("title", JValue.str "Updated")])
            bookDune :: []) :=
  ⟨(update_partial_field_law "b4" [("x", JValue.num 1)] [bookDune] [] []
      bookDune "x" JValue.null).1 (by decide),
   (update_partial_field_law "b4" [("title", JValue.str "Updated")] [bookDune]
      [bookHobbit] [] bookDune "x" JValue.null).2.1
      (by decide) (by decide) (by decide)⟩

/-- C7: the JSON object for a book always carries `id`, `title` and `author`,
carries `edition`, `pages` and `year` exactly when the stored value is
non-empty, uses no key outside these six, and never depends on (or exposes)
the storage-assigned internal identifier. -/
theorem book_json_representation (b : BookStore) :
    (bookToJson b).lookup "id" = some b.ID ∧
    (bookToJson b).lookup "title" = some b.BookName ∧
    (bookToJson b).lookup "author" = some b.BookAuthor ∧
    ((bookToJson b).lookup "edition"
      = if b.BookEdition == "" then none else some b.BookEdition) ∧
    ((bookToJson b).lookup "pages"
      = if b.BookPages == "" then none else some b.BookPages) ∧
    ((bookToJson b).lookup "year"
      = if b.BookYear == "" then none else some b.BookYear) ∧
    (∀ k ∈ (bookToJson b).map Prod.fst,
      k ∈ (["id", "title", "author", "edition", "pages", "year"] :
        List String)) ∧
    (∀ n, bookToJson { b with MongoID := n } = bookToJson b) := by
  cases h1 : b.BookEdition == "" <;> cases h2 : b.BookPages == "" <;>
    cases h3 : b.BookYear == "" <;>
    refine ⟨?_, ?_, ?_, ?_, ?_, ?_, ?_, fun n => rfl⟩ <;>
    simp [bookToJson, List.lookup, h1, h2, h3]

/-- C7 witness: a key present in a concrete serialized record is among the six
allowed keys. -/
theorem book_json_representation_witness :
    "year" ∈ (["id", "title", "author", "edition", "pages", "year"] :
      List String) :=
  (book_json_representation bookDune).2.2.2.2.2.2.1 "year" (by decide)

/-- C4: each seeding step inserts its record at zero exact matches, is a no-op
at exactly one match, and aborts fatally at more than one; consequently a
successful bootstrap leaves exactly one instance of each example record, is a
fixed point of further bootstrap runs, and survives any number of repeats. -/
theorem bootstrap_seeding_idempotent (s s' : List BookStore) (b : BookStore)
    (n : Nat) :
    (countMatches s b = 0 → seedOne s b = some (insertBook s b)) ∧
    (countMatches s b = 1 → seedOne s b = some s) ∧
    (1 < countMatches s b → seedOne s b = none) ∧
    (prepareData s = some s' →
      ((∀ e ∈ exampleBooks, countMatches s' e = 1) ∧
        prepareData s' = some s' ∧ seedTimes n s' = some s')) := by
  obtain ⟨d12, d13, d21, d23, d31, d32⟩ := exampleBooks_pairwise_distinct
  refine ⟨?_, ?_, ?_, ?_⟩
  · intro h
    rw [seedOne_eq, h]
    simp
  · intro h
    exact seedOne_of_count_one s b h
  · intro h
    rw [seedOne_eq]
    simp [h]
  · intro h
    rcases hh1 : seedOne s exampleBook1 with _ | s1
    · rw [prepareData, exampleBooks] at h
      simp [seedAll, hh1] at h
    rcases hh2 : seedOne s1 exampleBook2 with _ | s2
    · rw [prepareData, exampleBooks] at h
      simp [seedAll, hh1, hh2] at h
    rcases hh3 : seedOne s2 exampleBook3 with _ | s3
    · rw [prepareData, exampleBooks] at h
      simp [seedAll, hh1, hh2, hh3] at h
    have hs3 : s3 = s' := by
      rw [prepareData, exampleBooks] at h
      simpa [seedAll, hh1, hh2, hh3] using h
    have c1 : countMatches s3 exampleBook1 = 1 := by
      rw [seedOne_count_other s2 s3 exampleBook3 exampleBook1 hh3 d13,
        seedOne_count_other s1 s2 exampleBook2 exampleBook1 hh2 d12]
      exact seedOne_count s s1 exampleBook1 hh1
    have c2 : countMatches s3 exampleBook2 = 1 := by
      rw [seedOne_count_other s2 s3 exampleBook3 exampleBook2 hh3 d23]
      exact seedOne_count s1 s2 exampleBook2 hh2
    have c3 : countMatches s3 exampleBook3 = 1 :=
      seedOne_count s2 s3 exampleBook3 hh3
    have hfix : prepareData s3 = some s3 := by
      rw [prepareData, exampleBooks]
      simp [seedAll, seedOne_of_count_one s3 exampleBook1 c1,
        seedOne_of_count_one s3 exampleBook2 c2,
        seedOne_of_count_one s3 exampleBook3 c3]
    have hiter : ∀ m, seedTimes m s3 = some s3 := by
      intro m
      induction m with
      | zero => rfl
      | succ m ih => simp [seedTimes, hfix, ih]
    rw [← hs3]
    refine ⟨?_, hfix, hiter n⟩
    intro e he
    simp only [exampleBooks, List.mem_cons, List.not_mem_nil, or_false] at he
    rcases he with rfl | rfl | rfl
    · exact c1
    · exact c2
    · exact c3

/-- C4 witness: seeding an empty store yields the three example records, and
the result is untouched by further bootstrap runs. -/
theorem bootstrap_seeding_idempotent_witness :
    (∀ e ∈ exampleBooks, countMatches seededExample e = 1) ∧
    prepareData seededExample = some seededExample ∧
    seedTimes 2 seededExample = some seededExample :=
  (bootstrap_seeding_idempotent [] seededExample exampleBook1 2).2.2.2
    (by decide)

/-- Membership in the first-seen deduplication is membership in the input. -/
theorem firstSeenDedup_mem (xs : List String) (a : String) :
    a ∈ firstSeenDedup xs ↔ a ∈ xs := by
  induction xs using firstSeenDedup.induct with
  | case1 => simp [firstSeenDedup]
  | case2 x xs ih =>
    by_cases hax : a = x <;>
      simp [firstSeenDedup, ih, List.mem_filter, hax]

/-- The first-seen deduplication has no duplicates. -/
theorem firstSeenDedup_nodup (xs : List String) : (firstSeenDedup xs).Nodup := by
  induction xs using firstSeenDedup.induct with
  | case1 => simp [firstSeenDedup]
  | case2 x xs ih =>
    simp only [firstSeenDedup]
    refine List.nodup_cons.mpr ⟨?_, ih⟩
    intro hx
    rw [firstSeenDedup_mem] at hx
    simp [List.mem_filter] at hx

/-- The membership-set loop of the handlers computes the first-seen
deduplication of the projected field values, for any starting set and
output. -/
theorem collect_loop_eq (f : BookStore → String) (results : List BookStore) :
    ∀ seen out : List String,
    (results.foldl
        (fun acc book =>
          if acc.1.contains (f book) then acc
          else (f book :: acc.1, acc.2 ++ [f book]))
        (seen, out)).2
      = out ++ firstSeenDedup ((results.map f).filter
          (fun y => !seen.contains y)) := by
  induction results with
  | nil =>
    intro seen out
    simp [firstSeenDedup]
  | cons b rest ih =>
    intro seen out
    by_cases hx : f b ∈ seen
    · rw [List.foldl_cons,
        if_pos (show (seen, out).1.contains (f b) = true by simpa using hx),
        ih seen out, List.map_cons, List.filter_cons,
        if_neg (show ¬((!seen.contains (f b)) = true) by simp [hx])]
    · rw [List.foldl_cons,
        if_neg (show ¬((seen, out).1.contains (f b) = true) by simpa using hx),
        ih (f b :: seen) (out ++ [f b]), List.map_cons, List.filter_cons,
        if_pos (show (!seen.contains (f b)) = true by simp [hx])]
      have hfilt : (rest.map f).filter (fun y => !(f b :: seen).contains y)
          = ((rest.map f).filter (fun y => !seen.contains y)).filter
              (fun y => !(y == f b)) := by
        rw [List.filter_filter]
        apply List.filter_congr
        intro a _
        by_cases hax : a = f b
        · subst hax
          simp
        · by_cases has : a ∈ seen <;> simp [List.contains_cons, hax, has]
      rw [hfilt]
      simp only [firstSeenDedup]
      simp

/-- The handler loop on a whole record list equals the first-seen
deduplication of the projected field. -/
theorem collectField_eq (f : BookStore → String) (results : List BookStore) :
    collectField f results = firstSeenDedup (results.map f) := by
  rw [collectField, collect_loop_eq f results [] []]
  simp

/-- C6: on a successful fetch, `/authors` and `/years` render, with status
200, the stored records' author (respectively year) values with duplicates
removed: each distinct value appears exactly once, in first-seen order. -/
theorem derived_list_routes (results : List BookStore) :
    getAuthorsPage (Except.ok ()) (Except.ok results)
      = (200, some (firstSeenDedup (results.map (fun b => b.BookAuthor)))) ∧
    getYearsPage (Except.ok ()) (Except.ok results)
      = (200, some (firstSeenDedup (results.map (fun b => b.BookYear)))) ∧
    (firstSeenDedup (results.map (fun b => b.BookAuthor))).Nodup ∧
    (∀ a, a ∈ firstSeenDedup (results.map (fun b => b.BookAuthor)) ↔
      a ∈ results.map (fun b => b.BookAuthor)) ∧
    (firstSeenDedup (results.map (fun b => b.BookYear))).Nodup ∧
    (∀ y, y ∈ firstSeenDedup (results.map (fun b => b.BookYear)) ↔
      y ∈ results.map (fun b => b.BookYear)) := by
  refine ⟨?_, ?_, firstSeenDedup_nodup _,
    fun a => firstSeenDedup_mem _ a, firstSeenDedup_nodup _,
    fun y => firstSeenDedup_mem _ y⟩
  · simp [getAuthorsPage, collectField_eq]
  · simp [getYearsPage, collectField_eq]

/-- C6 witness: the routes applied to a concrete store with a duplicated
author. -/
theorem derived_list_routes_witness :
    getAuthorsPage (Except.ok ())
        (Except.ok [bookDune, bookDuneMessiah, bookHobbit])
      = (200, some (firstSeenDedup
          ([bookDune, bookDuneMessiah, bookHobbit].map
            (fun b => b.BookAuthor)))) :=
  (derived_list_routes [bookDune, bookDuneMessiah, bookHobbit]).1
